import Mathlib

/-!
Verification of the LLD-patterns repository: a shallow embedding of the
object-creation and composition examples (Factory Method, Abstract Factory,
Builder, Prototype, Singleton) and of the parking-spot and bill-splitting
examples, with theorems checking the specification's claims against the code.

Doubles in the C++ sources are modelled as rationals (ℚ); the cost factors
0.5, 0.3, 0.1 are written as the exact rationals 1/2, 3/10, 1/10.
-/

namespace LLD

/-! ## Factory Method (src/unnamed/part_000, src/factory_method_pattern.cpp)

`ShippingMethod` is the product interface with concrete variants
`AirShipping`, `SeaShipping`, `GroundShipping`; the only state-free
observable behaviours are `bookShipment` (a print) and
`calculateShippingCost`. -/

inductive ShippingMethod
  | air
  | sea
  | ground
deriving DecidableEq, Repr

/-- `calculateShippingCost(weight, distance)`: Air returns
`weight * distance * 0.5`, Sea `weight * distance * 0.3`,
Ground `weight * distance * 0.1`. -/
def calculateShippingCost : ShippingMethod → ℚ → ℚ → ℚ
  | .air, weight, distance => weight * distance * (1 / 2)
  | .sea, weight, distance => weight * distance * (3 / 10)
  | .ground, weight, distance => weight * distance * (1 / 10)

/-- `ShippingFactory::createShippingMethod(shippingChoice)` from
src/unnamed/part_000: choice 1 gives AirShipping, choice 2 SeaShipping,
and every other choice falls through to GroundShipping. -/
def createShippingMethod (shippingChoice : Int) : ShippingMethod :=
  if shippingChoice = 1 then .air
  else if shippingChoice = 2 then .sea
  else .ground

/-! ## Abstract Factory (src/abstract_factory_pattern.cpp)

Chairs and sofas carry an observable style (the string each `sitOn` /
`lieOn` prints). The two concrete factories each build a whole family. -/

inductive Style
  | victorian
  | modern
deriving DecidableEq, Repr

structure Chair where
  style : Style
deriving DecidableEq, Repr

structure Sofa where
  style : Style
deriving DecidableEq, Repr

inductive FurnitureFactory
  | victorianFactory
  | modernFactory
deriving DecidableEq, Repr

/-- `FurnitureFactory::createChair`: the Victorian factory returns a
`VictorianChair`, the Modern factory a `ModernChair`. -/
def createChair : FurnitureFactory → Chair
  | .victorianFactory => ⟨.victorian⟩
  | .modernFactory => ⟨.modern⟩

/-- `FurnitureFactory::createSofa`: the Victorian factory returns a
`VictorianSofa`, the Modern factory a `ModernSofa`. -/
def createSofa : FurnitureFactory → Sofa
  | .victorianFactory => ⟨.victorian⟩
  | .modernFactory => ⟨.modern⟩

/-- The factory selection in `main` of src/abstract_factory_pattern.cpp:
choice 1 gives the Victorian factory, every other choice the Modern one. -/
def chooseFurnitureFactory (furnitureChoice : Int) : FurnitureFactory :=
  if furnitureChoice = 1 then .victorianFactory else .modernFactory

/-! ## Builder (src/builder_pattern.cpp)

A `Meal` accumulates dishes in order (`std::vector<std::string>`); each
concrete builder owns a meal that its steps extend, and `getMeal` hands the
current meal back with no completeness check. The `MealDirector` drives the
fixed step order main dish, side dish, drink. Virtual dispatch through
`MealBuilder*` is modelled by a record of the builder's step operations. -/

structure Meal where
  dishes : List String
deriving DecidableEq, Repr

/-- `Meal::addDish`: pushes the dish at the back of the vector. -/
def Meal.addDish (m : Meal) (dish : String) : Meal :=
  ⟨m.dishes ++ [dish]⟩

structure VegetarianMealBuilder where
  meal : Meal
deriving DecidableEq, Repr

/-- `VegetarianMealBuilder()`: the constructor creates a fresh empty meal. -/
def VegetarianMealBuilder.start : VegetarianMealBuilder :=
  ⟨⟨[]⟩⟩

def VegetarianMealBuilder.buildMainDish (b : VegetarianMealBuilder) :
    VegetarianMealBuilder :=
  ⟨b.meal.addDish "Vegetarian Burger"⟩

def VegetarianMealBuilder.buildSideDish (b : VegetarianMealBuilder) :
    VegetarianMealBuilder :=
  ⟨b.meal.addDish "Salad"⟩

def VegetarianMealBuilder.buildDrink (b : VegetarianMealBuilder) :
    VegetarianMealBuilder :=
  ⟨b.meal.addDish "Lemonade"⟩

/-- `VegetarianMealBuilder::getMeal`: returns the meal as it currently
stands — the code performs no completeness check before returning it. -/
def VegetarianMealBuilder.getMeal (b : VegetarianMealBuilder) : Meal :=
  b.meal

structure NonVegetarianMealBuilder where
  meal : Meal
deriving DecidableEq, Repr

/-- `NonVegetarianMealBuilder()`: the constructor creates a fresh empty
meal. -/
def NonVegetarianMealBuilder.start : NonVegetarianMealBuilder :=
  ⟨⟨[]⟩⟩

def NonVegetarianMealBuilder.buildMainDish (b : NonVegetarianMealBuilder) :
    NonVegetarianMealBuilder :=
  ⟨b.meal.addDish "Chicken Burger"⟩

def NonVegetarianMealBuilder.buildSideDish (b : NonVegetarianMealBuilder) :
    NonVegetarianMealBuilder :=
  ⟨b.meal.addDish "Fries"⟩

def NonVegetarianMealBuilder.buildDrink (b : NonVegetarianMealBuilder) :
    NonVegetarianMealBuilder :=
  ⟨b.meal.addDish "Coke"⟩

/-- `NonVegetarianMealBuilder::getMeal`: returns the current meal with no
completeness check. -/
def NonVegetarianMealBuilder.getMeal (b : NonVegetarianMealBuilder) : Meal :=
  b.meal

/-- The `MealBuilder` virtual interface: the operations a concrete builder
of state type `B` exposes to the director. -/
structure MealBuilderOps (B : Type) where
  buildMainDish : B → B
  buildSideDish : B → B
  buildDrink : B → B
  getMeal : B → Meal

def vegetarianOps : MealBuilderOps VegetarianMealBuilder :=
  ⟨VegetarianMealBuilder.buildMainDish, VegetarianMealBuilder.buildSideDish,
    VegetarianMealBuilder.buildDrink, VegetarianMealBuilder.getMeal⟩

def nonVegetarianOps : MealBuilderOps NonVegetarianMealBuilder :=
  ⟨NonVegetarianMealBuilder.buildMainDish,
    NonVegetarianMealBuilder.buildSideDish,
    NonVegetarianMealBuilder.buildDrink, NonVegetarianMealBuilder.getMeal⟩

/-- `MealDirector::constructMeal(builder)`: invokes `buildMainDish`, then
`buildSideDish`, then `buildDrink` on the builder, then returns
`builder->getMeal()`. -/
def MealDirector.constructMeal {B : Type} (ops : MealBuilderOps B) (b : B) :
    Meal :=
  ops.getMeal (ops.buildDrink (ops.buildSideDish (ops.buildMainDish b)))

/-! ## Prototype (src/prototype_pattern.cpp)

Characters are `Warrior`, `Mage`, `Archer`, each holding a name; `clone`
is `new Warrior(*this)` — a copy construction that duplicates all fields
(the `std::string` name is copied by value). To reason about aliasing and
independent mutability we model the C++ object store explicitly: a `Heap`
of character objects addressed by allocation order, where `new` appends and
in-place mutation of an owned object overwrites one address. The registry
(`CharacterRegistry`) maps type strings to addresses of the exemplars it
owns; `getPrototype` uses `unordered_map::at`, which throws when the tag is
absent (modelled by `Option`), and otherwise returns a freshly allocated
clone. -/

inductive CharacterClass
  | warrior
  | mage
  | archer
deriving DecidableEq, Repr

structure Character where
  cls : CharacterClass
  name : String
deriving DecidableEq, Repr

/-- `clone()` on each concrete character: `new Warrior(*this)` etc. — the
new object is a field-for-field copy of this one. (The fresh allocation is
performed by `Heap.alloc` at the call site in `getPrototype`.) -/
def Character.clone (c : Character) : Character :=
  c

/-- `showDetails()`: the line each character prints. -/
def Character.showDetails : Character → String
  | ⟨.warrior, n⟩ => "Warrior: " ++ n
  | ⟨.mage, n⟩ => "Mage: " ++ n
  | ⟨.archer, n⟩ => "Archer: " ++ n

/-- The C++ object store: addresses are indices into the allocation list. -/
structure Heap where
  objs : List Character
deriving DecidableEq, Repr

def Heap.empty : Heap :=
  ⟨[]⟩

/-- `new`: allocates the object at a fresh address. -/
def Heap.alloc (h : Heap) (c : Character) : Nat × Heap :=
  (h.objs.length, ⟨h.objs ++ [c]⟩)

/-- Dereferencing an address. -/
def Heap.get (h : Heap) (a : Nat) : Option Character :=
  h.objs[a]?

/-- In-place mutation of the object stored at an address (what a caller who
owns the clone may do to it). -/
def Heap.put (h : Heap) (a : Nat) (c : Character) : Heap :=
  ⟨h.objs.set a c⟩

/-- `CharacterRegistry`: `std::unordered_map<std::string, Character*>`,
modelled as an association list of (type, address); `operator[]` overwrites,
so `addPrototype` conses in front and lookup takes the first hit
(last write wins). -/
structure CharacterRegistry where
  prototypes : List (String × Nat)
deriving DecidableEq, Repr

def CharacterRegistry.empty : CharacterRegistry :=
  ⟨[]⟩

/-- `CharacterRegistry::addPrototype(type, prototype)`:
`prototypes[type] = prototype`. -/
def CharacterRegistry.addPrototype (r : CharacterRegistry) (type : String)
    (addr : Nat) : CharacterRegistry :=
  ⟨(type, addr) :: r.prototypes⟩

/-- `CharacterRegistry::getPrototype(type)`:
`return prototypes.at(type)->clone();` — `at` throws `out_of_range` when
the tag is unregistered (the `none` result; the method is `const`, so
nothing is modified on that path), otherwise a clone of the exemplar is
allocated and its address returned. -/
def CharacterRegistry.getPrototype (r : CharacterRegistry) (h : Heap)
    (type : String) : Option (Nat × Heap) :=
  match r.prototypes.lookup type with
  | none => none
  | some addr =>
    match h.get addr with
    | none => none
    | some c => some (h.alloc c.clone)

/-- A client session exercising the registry round trip, as `main` does:
allocate an exemplar, register it under `type`, issue two clones, mutate
the second clone in place (overwrite it with `c'`), then read back the
exemplar and both clones. -/
def cloneIndependence (h0 : Heap) (type : String) (ex c' : Character) :
    Option (Character × Character × Character) :=
  let alloc0 := h0.alloc ex
  let reg := CharacterRegistry.empty.addPrototype type alloc0.1
  match reg.getPrototype alloc0.2 type with
  | none => none
  | some (a1, h2) =>
    match reg.getPrototype h2 type with
    | none => none
    | some (a2, h3) =>
      let h4 := h3.put a2 c'
      match h4.get alloc0.1, h4.get a1, h4.get a2 with
      | some e, some k1, some k2 => some (e, k1, k2)
      | _, _, _ => none

/-! ## Singleton (src/unnamed/part_002)

`DatabaseConnection` holds a `connectionString`; the static `instance`
pointer starts at `nullptr`. The process state is modelled as
`Option String`: `none` before the first `getInstance` call, `some s` once
the single instance with connection string `s` exists. A call returns the
connection string of the instance it hands back, together with the new
static state. -/

/-- `DatabaseConnection::getInstance(connectionStr)`: constructs the
instance from its argument only when `instance == nullptr`, otherwise
returns the existing instance untouched. -/
def getInstance (st : Option String) (connectionStr : String) :
    String × Option String :=
  match st with
  | none => (connectionStr, some connectionStr)
  | some s => (s, some s)

/-- A sequence of `getInstance` calls with the given connection-string
arguments, started from static state `st`; yields the connection string
each call's returned instance holds. -/
def runGetInstanceCalls (st : Option String) :
    List String → List String
  | [] => []
  | a :: rest =>
    (getInstance st a).1 :: runGetInstanceCalls (getInstance st a).2 rest

/-! ## Parking spot (src/Examples/parking_spot.cpp)

`ParkingSpot` carries a number, a spot type, `isAvailable` (initialised
`true`) and `currentVehicle` (initialised `nullptr`). `assignVehicle`
refuses an occupied spot; `removeVehicle` frees it. Vehicles handed to
`assignVehicle` are the non-null products of `VehicleFactory`. -/

inductive VehicleType
  | car
  | bike
  | truck
deriving DecidableEq, Repr

inductive SpotType
  | car
  | bike
  | truck
deriving DecidableEq, Repr

structure Vehicle where
  number : String
  vtype : VehicleType
deriving DecidableEq, Repr

structure ParkingSpot where
  number : Int
  stype : SpotType
  isAvailable : Bool
  currentVehicle : Option Vehicle
deriving DecidableEq, Repr

/-- `ParkingSpot(num, type)`: the field initialisers set
`isAvailable = true` and `currentVehicle = nullptr`. -/
def ParkingSpot.create (num : Int) (type : SpotType) : ParkingSpot :=
  ⟨num, type, true, none⟩

/-- `ParkingSpot::assignVehicle(v)`: `if (!isAvailable) return false;`
otherwise store the vehicle, clear availability and return true. -/
def ParkingSpot.assignVehicle (s : ParkingSpot) (v : Vehicle) :
    Bool × ParkingSpot :=
  if !s.isAvailable then (false, s)
  else (true, { s with currentVehicle := some v, isAvailable := false })

/-- `ParkingSpot::removeVehicle()`: clears the vehicle and restores
availability. -/
def ParkingSpot.removeVehicle (s : ParkingSpot) : ParkingSpot :=
  { s with currentVehicle := none, isAvailable := true }

/-- One client-visible operation on a spot. -/
inductive SpotOp
  | assign (v : Vehicle)
  | remove
deriving DecidableEq, Repr

def ParkingSpot.applyOp (s : ParkingSpot) : SpotOp → ParkingSpot
  | .assign v => (s.assignVehicle v).2
  | .remove => s.removeVehicle

def ParkingSpot.applyOps (s : ParkingSpot) (ops : List SpotOp) :
    ParkingSpot :=
  ops.foldl ParkingSpot.applyOp s

/-- The availability invariant: a spot is available exactly when it holds
no vehicle. -/
def spotInvariant (s : ParkingSpot) : Prop :=
  s.isAvailable = true ↔ s.currentVehicle = none

instance (s : ParkingSpot) : Decidable (spotInvariant s) := by
  unfold spotInvariant
  infer_instance

/-! ## Bill splitting (src/Examples/split_wise.cpp)

`EqualSplitStrategy::calculateExpensePerUser` takes the amount and the
participant list, computes `n = users.size()`, `share = amount / n` with no
guard against `n == 0`, and returns `vector<float>(n, share)`. `User` and
the id-indexed result of `Expense::splitAmount` are modelled directly. -/

structure User where
  id : Int
  name : String
  email : String
deriving DecidableEq, Repr

/-- `EqualSplitStrategy::calculateExpensePerUser(amount, users)`:
`int n = users.size(); float share = amount / n;
return vector<float>(n, share);` — no emptiness guard. (Lean's total `/`
on ℚ stands in for the unguarded float division; the quotient is never
used when `n = 0` since the returned vector is then empty.) -/
def calculateExpensePerUser (amount : ℚ) (users : List User) : List ℚ :=
  let n := users.length
  let share := amount / n
  List.replicate n share

/-- `Expense::splitAmount()`: pairs each participant's id with their share
from the strategy. -/
def splitAmount (amount : ℚ) (participants : List User) :
    List (Int × ℚ) :=
  participants.zip (calculateExpensePerUser amount participants)
    |>.map fun p => (p.1.id, p.2)

/-! ## Theorems -/

/-- **C1** (counterexample). 99 is outside the closed variant enumeration
{1 ↦ Air, 2 ↦ Sea, 3 ↦ Ground}, yet `createShippingMethod(99)` does not
fail: it produces the Ground shipping product, and the furniture selection
at choice 99 produces the Modern factory — the silent defaults the claim
says never happen. -/
theorem createShippingMethod_default_counterexample :
    ¬((99 : Int) = 1 ∨ (99 : Int) = 2 ∨ (99 : Int) = 3) ∧
      createShippingMethod 99 = ShippingMethod.ground ∧
      chooseFurnitureFactory 99 = FurnitureFactory.modernFactory :=
  ⟨by decide, by decide, by decide⟩

/-- **C1** (amended). For every tag other than 1 (Air) and 2 (Sea), the
shipping factory silently substitutes the Ground variant, and for every
furniture choice other than 1 (Victorian) the Modern factory is silently
substituted; no tag ever fails — a Product is always produced. -/
theorem createShippingMethod_silent_default (choice furnitureChoice : Int)
    (h1 : choice ≠ 1) (h2 : choice ≠ 2) (h3 : furnitureChoice ≠ 1) :
    createShippingMethod choice = ShippingMethod.ground ∧
      chooseFurnitureFactory furnitureChoice =
        FurnitureFactory.modernFactory := by
  unfold createShippingMethod chooseFurnitureFactory
  rw [if_neg h1, if_neg h2, if_neg h3]
  exact ⟨rfl, rfl⟩

/-- **C1** (witness for the amended claim), at the invalid tag 99. -/
theorem createShippingMethod_silent_default_witness :
    createShippingMethod 99 = ShippingMethod.ground ∧
      chooseFurnitureFactory 99 = FurnitureFactory.modernFactory :=
  createShippingMethod_silent_default 99 99 (by decide) (by decide)
    (by decide)

/-- **C3** (counterexample). Calling `getMeal` on a freshly constructed
`VegetarianMealBuilder`, before any construction step has run, does not
fail with `IncompleteBuild`: it returns a `Meal` product whose dish list is
empty — a partially built Product, not the fully formed one. -/
theorem getMeal_before_steps_counterexample :
    (VegetarianMealBuilder.start.getMeal).dishes = [] ∧
      (VegetarianMealBuilder.start.getMeal).dishes ≠
        ["Vegetarian Burger", "Salad", "Lemonade"] :=
  ⟨rfl, by decide⟩

/-- **C3** (amended). `getMeal` performs no completeness check: invoked
before any step it returns the partially built meal (empty dish list)
without error, for both concrete builders; invoked after the director's
full step sequence it returns the fully formed meal. -/
theorem getMeal_unchecked :
    VegetarianMealBuilder.start.getMeal = ⟨[]⟩ ∧
      NonVegetarianMealBuilder.start.getMeal = ⟨[]⟩ ∧
      MealDirector.constructMeal vegetarianOps VegetarianMealBuilder.start =
        ⟨["Vegetarian Burger", "Salad", "Lemonade"]⟩ ∧
      MealDirector.constructMeal nonVegetarianOps
          NonVegetarianMealBuilder.start =
        ⟨["Chicken Burger", "Fries", "Coke"]⟩ :=
  ⟨rfl, rfl, rfl, rfl⟩

/-- **C4**. Each concrete furniture factory produces a same-style bundle:
the chair's and sofa's styles agree for every factory, the Victorian
factory yields Victorian pieces, the Modern factory Modern pieces. -/
theorem furniture_family_consistent :
    (∀ f : FurnitureFactory, (createChair f).style = (createSofa f).style) ∧
      (createChair .victorianFactory).style = .victorian ∧
      (createSofa .victorianFactory).style = .victorian ∧
      (createChair .modernFactory).style = .modern ∧
      (createSofa .modernFactory).style = .modern := by
  refine ⟨fun f => ?_, rfl, rfl, rfl, rfl⟩
  cases f <;> rfl

/-- **C5**. The director's fixed order (main dish, side dish, drink) on the
Vegetarian builder yields exactly
["Vegetarian Burger", "Salad", "Lemonade"], in that order. -/
theorem vegetarian_meal_order :
    MealDirector.constructMeal vegetarianOps VegetarianMealBuilder.start =
      ⟨["Vegetarian Burger", "Salad", "Lemonade"]⟩ :=
  rfl

/-- **C6**. The product the factory creates for tag 1 ("Air") computes
shipping cost as weight × distance × 0.5 for all weights and distances;
in particular cost(10, 500) = 2500. -/
theorem airShipping_cost :
    (∀ weight distance : ℚ,
        calculateShippingCost (createShippingMethod 1) weight distance =
          weight * distance * (1 / 2)) ∧
      calculateShippingCost (createShippingMethod 1) 10 500 = 2500 := by
  refine ⟨fun weight distance => rfl, by norm_num [createShippingMethod,
    calculateShippingCost]⟩

/-- **C7**. When a tag has no registered exemplar, `getPrototype` fails
(the `unordered_map::at` throw) and returns no Product. The failing path
performs no allocation and the method is `const`, so the registry's stored
exemplars and the heap are exactly as before the call. -/
theorem getPrototype_unregistered_fails (r : CharacterRegistry) (h : Heap)
    (type : String) (habs : r.prototypes.lookup type = none) :
    r.getPrototype h type = none := by
  unfold CharacterRegistry.getPrototype
  rw [habs]

/-- **C7** (witness), at the empty registry and the tag "dragon". -/
theorem getPrototype_unregistered_fails_witness :
    CharacterRegistry.empty.prototypes.lookup "dragon" = none ∧
      CharacterRegistry.empty.getPrototype Heap.empty "dragon" = none :=
  ⟨rfl, getPrototype_unregistered_fails CharacterRegistry.empty Heap.empty
    "dragon" rfl⟩

/-- Once the singleton exists with connection string `s`, any sequence of
further `getInstance` calls observes `s` throughout, whatever arguments
the calls pass. -/
theorem runGetInstanceCalls_some (s : String) (l : List String) :
    runGetInstanceCalls (some s) l = List.replicate l.length s := by
  induction l with
  | nil => rfl
  | cons a t ih => simp [runGetInstanceCalls, getInstance, ih,
      List.replicate_succ]

/-- **C8**. `getInstance` is idempotent: with an existing instance the call
returns it and ignores its connection-string argument; the first call
constructs the instance from its argument; hence every call sequence
observes the connection string of its first call throughout — sequences
differing only after the first call are indistinguishable. -/
theorem getInstance_first_call_wins :
    (∀ s a, getInstance (some s) a = (s, some s)) ∧
      (∀ a, getInstance none a = (a, some a)) ∧
      (∀ (a : String) (rest : List String),
        runGetInstanceCalls none (a :: rest) =
          List.replicate (rest.length + 1) a) := by
  refine ⟨fun s a => rfl, fun a => rfl, fun a rest => ?_⟩
  simp [runGetInstanceCalls, getInstance, runGetInstanceCalls_some,
    List.replicate_succ]

/-- A single spot operation preserves the availability invariant. -/
theorem spotInvariant_applyOp (s : ParkingSpot) (op : SpotOp)
    (hs : spotInvariant s) : spotInvariant (s.applyOp op) := by
  cases op with
  | assign v =>
    by_cases h : s.isAvailable = true
    · simp [ParkingSpot.applyOp, ParkingSpot.assignVehicle, h, spotInvariant]
    · have hf : s.isAvailable = false := by simpa using h
      simpa [ParkingSpot.applyOp, ParkingSpot.assignVehicle, hf] using hs
  | remove =>
    simp [ParkingSpot.applyOp, ParkingSpot.removeVehicle, spotInvariant]

/-- Any sequence of spot operations preserves the availability
invariant. -/
theorem spotInvariant_applyOps (s : ParkingSpot) (ops : List SpotOp)
    (hs : spotInvariant s) : spotInvariant (s.applyOps ops) := by
  induction ops generalizing s with
  | nil => exact hs
  | cons op t ih => exact ih _ (spotInvariant_applyOp s op hs)

/-- **C9**. `assignVehicle` on an occupied spot returns false and leaves
the spot unchanged; on a free spot it stores the vehicle, clears
availability and returns true; `removeVehicle` clears the vehicle and
restores availability; and from a freshly constructed spot no sequence of
assign/remove operations ever breaks the invariant that the spot is
available exactly when it holds no vehicle. -/
theorem parkingSpot_invariant :
    (∀ (s : ParkingSpot) (v : Vehicle), s.isAvailable = false →
        s.assignVehicle v = (false, s)) ∧
      (∀ (s : ParkingSpot) (v : Vehicle), s.isAvailable = true →
        s.assignVehicle v =
          (true, { s with currentVehicle := some v,
                          isAvailable := false })) ∧
      (∀ s : ParkingSpot, (s.removeVehicle).isAvailable = true ∧
        (s.removeVehicle).currentVehicle = none) ∧
      (∀ (num : Int) (t : SpotType) (ops : List SpotOp),
        spotInvariant ((ParkingSpot.create num t).applyOps ops)) := by
  refine ⟨fun s v h => ?_, fun s v h => ?_, fun s => ⟨rfl, rfl⟩,
    fun num t ops => ?_⟩
  · simp [ParkingSpot.assignVehicle, h]
  · simp [ParkingSpot.assignVehicle, h]
  · exact spotInvariant_applyOps _ _ (by simp [spotInvariant,
      ParkingSpot.create])

def sampleVehicle : Vehicle :=
  ⟨"DL-001", .car⟩

/-- **C9** (witness): an occupied spot rejects a second vehicle unchanged,
a fresh spot accepts one, and a concrete assign/remove run from a fresh
spot keeps the invariant. -/
theorem parkingSpot_invariant_witness :
    (ParkingSpot.mk 101 .car false (some sampleVehicle)).assignVehicle
        sampleVehicle =
      (false, ParkingSpot.mk 101 .car false (some sampleVehicle)) ∧
      (ParkingSpot.create 101 .car).assignVehicle sampleVehicle =
        (true, ParkingSpot.mk 101 .car false (some sampleVehicle)) ∧
      spotInvariant ((ParkingSpot.create 101 .car).applyOps
        [.assign sampleVehicle, .remove]) :=
  ⟨parkingSpot_invariant.1 _ sampleVehicle rfl,
    parkingSpot_invariant.2.1 _ sampleVehicle rfl,
    parkingSpot_invariant.2.2.2 101 .car [.assign sampleVehicle, .remove]⟩

/-- **C10**. With no participants the strategy returns the empty share
list (the unguarded division's quotient is never used, and the public
interface raises no error); with at least one participant the division by
`n` is sound and the result is exactly `n` shares, each `amount / n`,
summing back to the full amount. -/
theorem equalSplit_shares :
    (∀ amount : ℚ, calculateExpensePerUser amount [] = []) ∧
      (∀ (amount : ℚ) (users : List User), users ≠ [] →
        (calculateExpensePerUser amount users).length = users.length ∧
        (∀ q ∈ calculateExpensePerUser amount users,
            q = amount / users.length) ∧
        ((users.length : ℚ) ≠ 0) ∧
        (calculateExpensePerUser amount users).sum = amount) := by
  refine ⟨fun amount => rfl, fun amount users hne => ?_⟩
  have hn : users.length ≠ 0 := fun h => hne (List.length_eq_zero.mp h)
  have hq : (users.length : ℚ) ≠ 0 := Nat.cast_ne_zero.mpr hn
  refine ⟨by simp [calculateExpensePerUser], fun q hmem => ?_, hq, ?_⟩
  · exact (List.eq_of_mem_replicate hmem)
  · rw [calculateExpensePerUser]
    simp only [List.sum_replicate, nsmul_eq_mul]
    rw [mul_comm, div_mul_cancel₀ amount hq]

def sampleUsers : List User :=
  [⟨1, "Alice", "alice@example.com"⟩, ⟨2, "Bob", "bob@example.com"⟩,
    ⟨3, "Charlie", "charlie@example.com"⟩]

/-- **C10** (witness): the 300-unit expense of `main`, split equally among
Alice, Bob and Charlie, yields three shares summing to 300. -/
theorem equalSplit_shares_witness :
    (calculateExpensePerUser 300 sampleUsers).length = 3 ∧
      (calculateExpensePerUser 300 sampleUsers).sum = 300 :=
  ⟨(equalSplit_shares.2 300 sampleUsers (by decide)).1,
    (equalSplit_shares.2 300 sampleUsers (by decide)).2.2.2⟩

/-- Reading inside the left part of an appended list. -/
theorem getElem_append_of_lt {α : Type} (xs ys : List α) (n : Nat)
    (h : n < xs.length) : (xs ++ ys)[n]? = xs[n]? := by
  rw [List.getElem?_append]
  simp [h]

/-- A hit in the registry: when the tag resolves to an address holding a
character, `getPrototype` allocates a clone of it. -/
theorem getPrototype_hit (r : CharacterRegistry) (h : Heap) (type : String)
    (addr : Nat) (c : Character)
    (hl : r.prototypes.lookup type = some addr) (hg : h.get addr = some c) :
    r.getPrototype h type = some (h.alloc c) := by
  have h1 : r.getPrototype h type =
      match h.get addr with
      | none => none
      | some c => some (h.alloc c.clone) := by
    unfold CharacterRegistry.getPrototype
    rw [hl]
  rw [h1, hg]
  rfl

/-- **C2**. Registering an exemplar under a tag and cloning that tag twice
yields clones behaviorally identical to the exemplar (`clone` copies every
field, so `showDetails` agrees) at fresh addresses: overwriting the second
clone in place leaves both the registered exemplar and the first clone
exactly as they were — for every starting heap, tag, exemplar and
mutation. -/
theorem prototype_clone_roundtrip (h0 : Heap) (type : String)
    (ex c' : Character) :
    (Character.clone ex).showDetails = ex.showDetails ∧
      cloneIndependence h0 type ex c' = some (ex, ex, c') := by
  obtain ⟨l⟩ := h0
  refine ⟨rfl, ?_⟩
  have hlook : List.lookup type [(type, l.length)] = some l.length := by simp
  have hg1 : (Heap.mk (l ++ [ex])).get l.length = some ex := by
    simp [Heap.get, List.getElem?_concat_length]
  have hg2 : (Heap.mk ((l ++ [ex]) ++ [ex])).get l.length = some ex := by
    show ((l ++ [ex]) ++ [ex])[l.length]? = some ex
    rw [getElem_append_of_lt _ _ _ (by simp)]
    exact List.getElem?_concat_length l ex
  have hp1 := getPrototype_hit (CharacterRegistry.mk [(type, l.length)])
    (Heap.mk (l ++ [ex])) type l.length ex hlook hg1
  have hp2 := getPrototype_hit (CharacterRegistry.mk [(type, l.length)])
    (Heap.mk ((l ++ [ex]) ++ [ex])) type l.length ex hlook hg2
  have hne0 : (l ++ [ex] ++ [ex]).length ≠ l.length := by
    simp only [List.length_append, List.length_cons, List.length_nil]
    omega
  have hne1 : (l ++ [ex] ++ [ex]).length ≠ (l ++ [ex]).length := by
    simp only [List.length_append, List.length_cons, List.length_nil]
    omega
  have hput0 : ((Heap.mk (l ++ [ex] ++ [ex] ++ [ex])).put
      (l ++ [ex] ++ [ex]).length c').get l.length = some ex := by
    show ((l ++ [ex] ++ [ex] ++ [ex]).set
      (l ++ [ex] ++ [ex]).length c')[l.length]? = some ex
    rw [List.getElem?_set_ne hne0]
    rw [getElem_append_of_lt _ _ _ (by simp)]
    rw [getElem_append_of_lt _ _ _ (by simp)]
    exact List.getElem?_concat_length l ex
  have hput1 : ((Heap.mk (l ++ [ex] ++ [ex] ++ [ex])).put
      (l ++ [ex] ++ [ex]).length c').get (l ++ [ex]).length = some ex := by
    show ((l ++ [ex] ++ [ex] ++ [ex]).set
      (l ++ [ex] ++ [ex]).length c')[(l ++ [ex]).length]? = some ex
    rw [List.getElem?_set_ne hne1]
    rw [getElem_append_of_lt _ _ _ (by simp)]
    exact List.getElem?_concat_length (l ++ [ex]) ex
  have hput2 : ((Heap.mk (l ++ [ex] ++ [ex] ++ [ex])).put
      (l ++ [ex] ++ [ex]).length c').get (l ++ [ex] ++ [ex]).length =
      some c' := by
    show ((l ++ [ex] ++ [ex] ++ [ex]).set
      (l ++ [ex] ++ [ex]).length c')[(l ++ [ex] ++ [ex]).length]? =
      some c'
    exact List.getElem?_set_eq_of_lt c' (by simp)
  simp only [cloneIndependence, Heap.alloc, CharacterRegistry.empty,
    CharacterRegistry.addPrototype]
  rw [hp1]
  simp only [Heap.alloc]
  rw [hp2]
  simp only [Heap.alloc]
  rw [hput0, hput1, hput2]

end LLD
